import Mathlib

/-!
Verification of the CryptoTrader core against its specification.

The development shallowly embeds the three specified components of the
repository — the portfolio ledger (`portfolio_simulator.py`), the adaptive
analysis scheduler (`smart_scheduler.py`) and the retry/backoff policy
(`autonomous_crew.py`) — as executable Lean functions over exact rational
arithmetic (Python floats are idealised as `ℚ`).  Python dictionaries are
modelled as insertion-ordered association lists, matching `dict` semantics
(updates keep the key's slot, new keys append at the end).  The only Python
exceptions reachable in the embedded fragment are `ZeroDivisionError`s; each
reachable raise site is modelled explicitly by the branch the enclosing
`try/except` produces, including any in-memory mutations already applied
before the raise.
-/

namespace CryptoTrader

/-- Ordered association list standing for a Python `dict`: first binding for
a key wins on lookup. -/
abbrev Dict (α : Type) := List (String × α)

/-- Lookup, `d[k]` / `k in d`. -/
def dictGet {α : Type} (d : Dict α) (k : String) : Option α :=
  match d with
  | [] => none
  | (k', v) :: rest => if k' = k then some v else dictGet rest k

/-- Assignment `d[k] = v`: replaces in place when the key exists, appends otherwise —
Python dicts preserve insertion order. -/
def dictSet {α : Type} (d : Dict α) (k : String) (v : α) : Dict α :=
  match d with
  | [] => [(k, v)]
  | (k', v') :: rest => if k' = k then (k, v) :: rest else (k', v') :: dictSet rest k v

/-- Deletion `del d[k]`. -/
def dictErase {α : Type} (d : Dict α) (k : String) : Dict α :=
  match d with
  | [] => []
  | (k', v') :: rest => if k' = k then rest else (k', v') :: dictErase rest k

/-- The `Trade` dataclass (portfolio_simulator.py lines 15-32).  The timestamp is
the day number the order executed on (only `timestamp.date()` is ever
consulted by the code); the id's time suffix is rendered from that number. -/
structure Trade where
  trade_id : String
  timestamp : Int
  symbol : String
  side : String
  quantity : ℚ
  price : ℚ
  value : ℚ
  fee : ℚ
  reasoning : String
  deriving Repr, DecidableEq

/-- The `Position` dataclass (portfolio_simulator.py lines 34-47). -/
structure Position where
  symbol : String
  quantity : ℚ
  avg_price : ℚ
  total_cost : ℚ
  current_price : ℚ
  current_value : ℚ
  unrealized_pnl : ℚ
  unrealized_pnl_pct : ℚ
  deriving Repr, DecidableEq

/-- The `DailyReport` dataclass (portfolio_simulator.py lines 49-66); the date is
a day number and the performer/action strings keep the symbol / side part of
the Python f-strings (the numeric formatting inside them is presentation
only). -/
structure DailyReport where
  date : Int
  starting_balance : ℚ
  ending_balance : ℚ
  daily_pnl : ℚ
  daily_pnl_pct : ℚ
  total_pnl : ℚ
  total_pnl_pct : ℚ
  positions_count : Nat
  trades_count : Nat
  top_performer : Option String
  worst_performer : Option String
  key_actions : List String
  deriving Repr, DecidableEq

/-- In-memory state of `PortfolioSimulator` (file persistence is a mirror of
this state and is not modelled). -/
structure LedgerState where
  initial_balance : ℚ
  current_balance : ℚ
  trading_fee : ℚ
  positions : Dict Position
  trades : List Trade
  daily_reports : List DailyReport
  start_date : Int
  last_report_date : Option Int
  deriving Repr, DecidableEq

/-- Embeds `PortfolioSimulator.__init__` on a fresh directory (no persisted files). -/
def mkLedger (initial_balance : ℚ) (trading_fee : ℚ) (start_date : Int := 0) : LedgerState :=
  { initial_balance := initial_balance
    current_balance := initial_balance
    trading_fee := trading_fee
    positions := []
    trades := []
    daily_reports := []
    start_date := start_date
    last_report_date := none }

/-- Embeds `PortfolioSimulator.execute_buy_order` (lines 181-241).  Returns the
`Optional[Trade]` result together with the post-call state.  The two raise
sites inside the `try` are `quantity = net_amount / current_price` (price
zero; nothing mutated yet) and `position.avg_price = total_cost /
total_quantity` (an existing position whose quantity the buy exactly
cancels; `current_balance` was already decremented on line 210, and that
mutation survives the caught exception). -/
def execute_buy_order (st : LedgerState) (symbol : String) (usd_amount : ℚ)
    (current_price : ℚ) (reasoning : String := "") (now : Int := 0) :
    Option Trade × LedgerState :=
  let fee := usd_amount * st.trading_fee
  let net_amount := usd_amount - fee
  if st.current_balance < usd_amount then
    (none, st)
  else if current_price = 0 then
    -- ZeroDivisionError computing `quantity`, caught: no state change
    (none, st)
  else
    let quantity := net_amount / current_price
    let trade : Trade :=
      { trade_id := "BUY_" ++ symbol ++ "_" ++ toString now
        timestamp := now
        symbol := symbol
        side := "BUY"
        quantity := quantity
        price := current_price
        value := usd_amount
        fee := fee
        reasoning := reasoning }
    let balance' := st.current_balance - usd_amount
    match dictGet st.positions symbol with
    | some position =>
      if position.quantity + quantity = 0 then
        -- ZeroDivisionError computing the new `avg_price`, caught: the
        -- balance decrement already happened, the position and logs did not
        (none, { st with current_balance := balance' })
      else
        let total_cost := position.total_cost + net_amount
        let total_quantity := position.quantity + quantity
        let position' :=
          { position with
              avg_price := total_cost / total_quantity
              quantity := total_quantity
              total_cost := total_cost }
        (some trade,
          { st with
              current_balance := balance'
              positions := dictSet st.positions symbol position'
              trades := st.trades ++ [trade] })
    | none =>
      let position' : Position :=
        { symbol := symbol
          quantity := quantity
          avg_price := current_price
          total_cost := net_amount
          current_price := current_price
          current_value := quantity * current_price
          unrealized_pnl := 0
          unrealized_pnl_pct := 0 }
      (some trade,
        { st with
            current_balance := balance'
            positions := dictSet st.positions symbol position'
            trades := st.trades ++ [trade] })

/-- Embeds `PortfolioSimulator.execute_sell_order` (lines 243-296).  The raise site
is the `total_cost` rescaling `position.quantity / (position.quantity +
quantity)` whose denominator is the pre-sale quantity; it is reachable only
when that quantity is zero (and the requested quantity negative), after the
balance and the position's quantity were already mutated. -/
def execute_sell_order (st : LedgerState) (symbol : String) (quantity : ℚ)
    (current_price : ℚ) (reasoning : String := "") (now : Int := 0) :
    Option Trade × LedgerState :=
  match dictGet st.positions symbol with
  | none => (none, st)
  | some position =>
    if position.quantity < quantity then
      (none, st)
    else
      let gross_proceeds := quantity * current_price
      let fee := gross_proceeds * st.trading_fee
      let net_proceeds := gross_proceeds - fee
      let trade : Trade :=
        { trade_id := "SELL_" ++ symbol ++ "_" ++ toString now
          timestamp := now
          symbol := symbol
          side := "SELL"
          quantity := quantity
          price := current_price
          value := gross_proceeds
          fee := fee
          reasoning := reasoning }
      let balance' := st.current_balance + net_proceeds
      let q' := position.quantity - quantity
      if q' ≤ 1 / 1000000 then
        (some trade,
          { st with
              current_balance := balance'
              positions := dictErase st.positions symbol
              trades := st.trades ++ [trade] })
      else if position.quantity = 0 then
        -- ZeroDivisionError rescaling `total_cost`, caught: balance and
        -- quantity mutations stand, the trade is not recorded
        (none,
          { st with
              current_balance := balance'
              positions := dictSet st.positions symbol { position with quantity := q' } })
      else
        (some trade,
          { st with
              current_balance := balance'
              positions :=
                dictSet st.positions symbol
                  { position with
                      quantity := q'
                      total_cost := position.total_cost * (q' / (q' + quantity)) }
              trades := st.trades ++ [trade] })

/-- Field update a present symbol receives inside
`get_current_portfolio_value` (lines 172-175). -/
def refreshPosition (position : Position) (price : ℚ) : Position :=
  let current_value := position.quantity * price
  let unrealized_pnl := current_value - position.total_cost
  { position with
      current_price := price
      current_value := current_value
      unrealized_pnl := unrealized_pnl
      unrealized_pnl_pct :=
        if position.total_cost > 0 then unrealized_pnl / position.total_cost * 100 else 0 }

/-- Loop body of `get_current_portfolio_value` (lines 169-177): a position
whose symbol is present in `current_prices` is refreshed and its new
`current_value` accumulated; a position whose symbol is missing is left
as-is and — the `positions_value +=` line sits inside the `if` — contributes
nothing to the accumulator. -/
def valuationStep (current_prices : Dict ℚ) (acc : ℚ × Dict Position)
    (entry : String × Position) : ℚ × Dict Position :=
  match dictGet current_prices entry.1 with
  | some price =>
    let position' := refreshPosition entry.2 price
    (acc.1 + position'.current_value, acc.2 ++ [(entry.1, position')])
  | none => (acc.1, acc.2 ++ [entry])

/-- Embeds `PortfolioSimulator.get_current_portfolio_value` (lines 165-179):
folds `valuationStep` over the positions in order and returns the total
together with the post-call state (the method mutates the positions it
refreshes). -/
def get_current_portfolio_value (st : LedgerState) (current_prices : Dict ℚ) :
    ℚ × LedgerState :=
  let folded := st.positions.foldl (valuationStep current_prices) (0, [])
  (st.current_balance + folded.1, { st with positions := folded.2 })

/-- Embeds `PortfolioSimulator.should_generate_daily_report` (lines 398-401):
true exactly when no report was issued for `today` yet. -/
def should_generate_daily_report (st : LedgerState) (today : Int) : Bool :=
  st.last_report_date ≠ some today

/-- Best/worst performer scan of `generate_daily_report` (lines 328-340):
running maximum of `unrealized_pnl_pct` starting at `float('-inf')`
(modelled by `none`), strict comparison, remembering the symbol. -/
def performerScan (cmp : ℚ → ℚ → Bool) (positions : Dict Position) :
    Option ℚ × Option String :=
  positions.foldl
    (fun acc entry =>
      let better :=
        match acc.1 with
        | none => true
        | some b => cmp entry.2.unrealized_pnl_pct b
      if better then (some entry.2.unrealized_pnl_pct, some entry.1) else acc)
    (none, none)

/-- Embeds `PortfolioSimulator.generate_daily_report` (lines 306-378).  Appends a
report unconditionally (the method itself has no per-date guard) and records
`last_report_date := today`.  No branch of the embedded fragment can raise
(every division is guarded by a positivity test), so the `except` fallback
to `_default_daily_report` is unreachable. -/
def generate_daily_report (st : LedgerState) (current_prices : Dict ℚ)
    (today : Int) : DailyReport × LedgerState :=
  let valued := get_current_portfolio_value st current_prices
  let current_portfolio_value := valued.1
  let st1 := valued.2
  let yesterday_value :=
    match st1.daily_reports.getLast? with
    | some r => r.ending_balance
    | none => st1.initial_balance
  let daily_pnl := current_portfolio_value - yesterday_value
  let daily_pnl_pct := if yesterday_value > 0 then daily_pnl / yesterday_value * 100 else 0
  let total_pnl := current_portfolio_value - st1.initial_balance
  let total_pnl_pct :=
    if st1.initial_balance > 0 then total_pnl / st1.initial_balance * 100 else 0
  let top_performer := (performerScan (fun a b => b < a) st1.positions).2
  let worst_performer := (performerScan (fun a b => a < b) st1.positions).2
  let today_trades := st1.trades.filter (fun t => t.timestamp = today)
  let key_actions0 :=
    (today_trades.drop (today_trades.length - 5)).map
      (fun t => t.side ++ " " ++ t.symbol)
  let key_actions :=
    if key_actions0.isEmpty then ["No trades executed today"] else key_actions0
  let report : DailyReport :=
    { date := today
      starting_balance := yesterday_value
      ending_balance := current_portfolio_value
      daily_pnl := daily_pnl
      daily_pnl_pct := daily_pnl_pct
      total_pnl := total_pnl
      total_pnl_pct := total_pnl_pct
      positions_count := st1.positions.length
      trades_count := today_trades.length
      top_performer := top_performer
      worst_performer := worst_performer
      key_actions := key_actions }
  (report,
    { st1 with
        daily_reports := st1.daily_reports ++ [report]
        last_report_date := some today })

/-- The call protocol used by the repository's only caller
(test_mode_main.py lines 91-92): generate a report only when
`should_generate_daily_report` allows it. -/
def guarded_daily_report (st : LedgerState) (current_prices : Dict ℚ)
    (today : Int) : LedgerState :=
  if should_generate_daily_report st today then
    (generate_daily_report st current_prices today).2
  else
    st

/-! ## Adaptive scheduler (smart_scheduler.py) -/

/-- The `AnalysisLevel` enum (smart_scheduler.py lines 22-27). -/
inductive AnalysisLevel where
  | monitor_only
  | quick_scan
  | medium_analysis
  | full_analysis
  deriving Repr, DecidableEq

/-- The `MarketCondition` dataclass (lines 29-36); the timestamp is irrelevant
to the decision logic. -/
structure MarketCondition where
  volatility_24h : ℚ
  volume_change : ℚ
  price_change : ℚ
  unusual_activity : Bool
  deriving Repr, DecidableEq

/-- The `ScheduleConfig` dataclass (lines 38-57). -/
structure ScheduleConfig where
  monitor_interval : ℚ := 5
  quick_scan_interval : ℚ := 60
  medium_analysis_interval : ℚ := 240
  full_analysis_interval : ℚ := 720
  high_volatility_threshold : ℚ := 5 / 100
  volume_surge_threshold : ℚ := 30 / 100
  significant_price_change : ℚ := 3 / 100
  active_hours_start : Nat := 6
  active_hours_end : Nat := 22
  weekend_scale_factor : ℚ := 3 / 2
  deriving Repr, DecidableEq

/-- A wall-clock instant: local day number plus hour and minute, the three
components `datetime.now()` is interrogated for. -/
structure Instant where
  day : Int
  hour : Nat
  minute : Nat
  deriving Repr, DecidableEq

/-- Minutes elapsed since day 0 midnight. -/
def Instant.absMinutes (t : Instant) : Int :=
  t.day * 1440 + (t.hour : Int) * 60 + (t.minute : Int)

/-- Embeds `datetime.weekday()`: 0 = Monday, …, 6 = Sunday, with day 0 taken as a
Monday. -/
def Instant.weekday (t : Instant) : Int :=
  t.day % 7

/-- Mutable fields of `SmartScheduler` the control loop touches:
`last_analysis` (one `Option` slot per level value, `none` standing for the
`datetime.min` default), `token_usage_today` and `analysis_count`. -/
structure SchedState where
  last_monitor : Option Int := none
  last_quick : Option Int := none
  last_medium : Option Int := none
  last_full : Option Int := none
  token_usage_today : Nat := 0
  count_monitor : Nat := 0
  count_quick : Nat := 0
  count_medium : Nat := 0
  count_full : Nat := 0
  deriving Repr, DecidableEq

/-- Test `now - last >= timedelta(minutes=interval)` with the `datetime.min`
default always due. -/
def due (now : Instant) (last : Option Int) (intervalMinutes : ℚ) : Bool :=
  match last with
  | none => true
  | some t => intervalMinutes ≤ ((now.absMinutes - t : Int) : ℚ)

/-- Embeds `SmartScheduler.determine_analysis_level` (lines 173-206). -/
def determine_analysis_level (cfg : ScheduleConfig) (st : SchedState)
    (now : Instant) (cond : MarketCondition) : AnalysisLevel :=
  if cond.unusual_activity then
    .full_analysis
  else
    let is_weekend := 5 ≤ now.weekday
    let is_active_hours :=
      cfg.active_hours_start ≤ now.hour ∧ now.hour ≤ cfg.active_hours_end
    let scale := if is_weekend then cfg.weekend_scale_factor else 1
    if due now st.last_full (cfg.full_analysis_interval * scale) then
      .full_analysis
    else if due now st.last_medium (cfg.medium_analysis_interval * scale) ∧ is_active_hours then
      .medium_analysis
    else if due now st.last_quick (cfg.quick_scan_interval * scale) then
      .quick_scan
    else
      .monitor_only

/-- Embeds `SmartScheduler.execute_analysis` (lines 208-275), state part: on the
non-monitor levels the token charge and count increment happen only when
`run_autonomous_crew` does not raise (`crewOk`), while `last_analysis[level]`
is updated unconditionally at the end. -/
def execute_analysis (st : SchedState) (level : AnalysisLevel) (now : Instant)
    (crewOk : Bool) : SchedState :=
  let t := some now.absMinutes
  match level with
  | .monitor_only =>
    { st with count_monitor := st.count_monitor + 1, last_monitor := t }
  | .quick_scan =>
    if crewOk then
      { st with
          token_usage_today := st.token_usage_today + 2000
          count_quick := st.count_quick + 1
          last_quick := t }
    else
      { st with last_quick := t }
  | .medium_analysis =>
    if crewOk then
      { st with
          token_usage_today := st.token_usage_today + 8000
          count_medium := st.count_medium + 1
          last_medium := t }
    else
      { st with last_medium := t }
  | .full_analysis =>
    if crewOk then
      { st with
          token_usage_today := st.token_usage_today + 25000
          count_full := st.count_full + 1
          last_full := t }
    else
      { st with last_full := t }

/-- Embeds `SmartScheduler._log_daily_summary` (lines 326-336), state part: the
counters reset only when the summary runs exactly at 00:00. -/
def log_daily_summary (st : SchedState) (now : Instant) : SchedState :=
  if now.hour = 0 ∧ now.minute = 0 then
    { st with
        token_usage_today := 0
        count_monitor := 0
        count_quick := 0
        count_medium := 0
        count_full := 0 }
  else
    st

/-- One iteration of the `SmartScheduler.run_continuous` loop body (lines
288-317).  When the daily budget is already spent the body `continue`s
immediately: no market fetch, no state-machine evaluation, no charge, not
even the hourly summary call — the returned level is `none`.  Otherwise the
tick evaluates the state machine on the fetched `cond`, executes the level,
and calls `_log_daily_summary` only when the current minute is 0. -/
def schedulerTick (cfg : ScheduleConfig) (st : SchedState) (now : Instant)
    (cond : MarketCondition) (crewOk : Bool) (maxDailyTokens : Nat) :
    Option AnalysisLevel × SchedState :=
  if maxDailyTokens ≤ st.token_usage_today then
    (none, st)
  else
    let level := determine_analysis_level cfg st now cond
    let st1 := execute_analysis st level now crewOk
    let st2 := if now.minute = 0 then log_daily_summary st1 now else st1
    (some level, st2)

/-! ## Retry policy (autonomous_crew.py, CrewRetryHandler) -/

/-- Constructor arguments of `CrewRetryHandler` (lines 88-92); the defaults
are `max_retries=3, base_delay=1.0, max_delay=60.0` (also the
`retry_defaults` used at line 268). -/
structure RetryHandler where
  max_retries : Nat := 3
  base_delay : ℚ := 1
  max_delay : ℚ := 60
  deriving Repr, DecidableEq

/-- Embeds `CrewRetryHandler.exponential_backoff_delay` (lines 94-100); `r` is the
value `random.random()` returned, an arbitrary rational in `[0, 1)`. -/
def exponential_backoff_delay (h : RetryHandler) (attempt : Nat) (r : ℚ) : ℚ :=
  let delay := min (h.base_delay * 2 ^ attempt) h.max_delay
  let jitter := delay * (1 / 4) * (2 * r - 1)
  max (1 / 10) (delay + jitter)

/-- Substring test underlying `pattern in error_str`: substring containment on the
character lists underlying the strings. -/
def charsStartWith : List Char → List Char → Bool
  | [], _ => true
  | _ :: _, [] => false
  | a :: as, b :: bs => a = b && charsStartWith as bs

/-- Does `pat` occur contiguously inside `s`? -/
def charsContains (pat : List Char) : List Char → Bool
  | [] => pat.isEmpty
  | c :: cs => charsStartWith pat (c :: cs) || charsContains pat cs

/-- ASCII `str.lower()`, restricted to the ASCII range the error messages use. -/
def toLowerStr (s : String) : String :=
  ⟨s.data.map Char.toLower⟩

/-- Embeds `CrewRetryHandler.is_retryable_error` (lines 102-125), the
pattern-matching part: the message is lowercased and tested against the
literal pattern list (the `litellm` isinstance tests concern a third-party
exception hierarchy outside the embedded fragment and only ever widen the
retryable set for messages these patterns already match). -/
def is_retryable_error (error : String) : Bool :=
  let retryable_patterns : List String :=
    ["connection error", "timeout", "503", "502", "500",
     "rate limit", "too many requests", "network", "connection",
     "ConnectionError", "TimeoutError", "ReadTimeout"]
  let error_str := toLowerStr error
  retryable_patterns.any (fun p => charsContains p.data error_str.data)

/-- Loop of `CrewRetryHandler.execute_with_retry` (lines 127-158).
`remaining = max_retries - attempt` counts the retries still allowed, so the
Python guard `attempt < self.max_retries` is `remaining > 0`.  `op n` is the
outcome of calling the operation on attempt `n`; `r n` the jitter drawn
before retry `n`.  The returned list holds every backoff delay slept, in
order. -/
def executeWithRetryGo {α : Type} (h : RetryHandler) (op : Nat → Except String α)
    (r : Nat → ℚ) : Nat → Nat → List ℚ → Except String α × List ℚ
  | remaining, attempt, delays =>
    let delays :=
      if attempt > 0 then delays ++ [exponential_backoff_delay h (attempt - 1) (r (attempt - 1))]
      else delays
    match op attempt with
    | .ok a => (.ok a, delays)
    | .error e =>
      match remaining with
      | 0 => (.error e, delays)
      | rem + 1 =>
        if is_retryable_error e then executeWithRetryGo h op r rem (attempt + 1) delays
        else (.error e, delays)

/-- Embeds `CrewRetryHandler.execute_with_retry`: run from attempt 0 with the full
retry budget; the result is either the first successful outcome or the last
error re-raised. -/
def execute_with_retry {α : Type} (h : RetryHandler) (op : Nat → Except String α)
    (r : Nat → ℚ) : Except String α × List ℚ :=
  executeWithRetryGo h op r h.max_retries 0 []

/-! ## Specification-side expressions and concrete scenario states -/

/-- What `valuationStep` does to one positions entry, stated directly:
refresh when the symbol is priced, keep otherwise. -/
def refreshEntry (current_prices : Dict ℚ) (entry : String × Position) :
    String × Position :=
  match dictGet current_prices entry.1 with
  | some price => (entry.1, refreshPosition entry.2 price)
  | none => entry

/-- Value the fold actually accumulates: the sum of `quantity * price` over
the entries whose symbol the price map knows, missing symbols contributing
nothing. -/
def pricedValue (current_prices : Dict ℚ) (positions : Dict Position) : ℚ :=
  (positions.map (fun entry =>
    match dictGet current_prices entry.1 with
    | some price => entry.2.quantity * price
    | none => 0)).sum

/-- Modelled from the spec (claim C1's reading of `Valuation`): cash plus
the sum of `current_value` over all open positions, a position whose symbol
is missing from the map being valued at its last known price. -/
def specValuation (st : LedgerState) (current_prices : Dict ℚ) : ℚ :=
  st.current_balance +
    (st.positions.map (fun entry =>
      match dictGet current_prices entry.1 with
      | some price => entry.2.quantity * price
      | none => entry.2.quantity * entry.2.current_price)).sum

/-- Number of persisted daily reports carrying a given calendar date. -/
def countReportsOn (d : Int) (reports : List DailyReport) : Nat :=
  (reports.filter (fun report => report.date = d)).length

/-- Round-trip scenario of claim C8: from a fresh ledger, buy `X` dollars of
`sym` at price `p`, then sell the entire resulting position quantity
`(X - X*f)/p` at the same price. -/
def roundTripState (initial f X p : ℚ) (sym : String) : LedgerState :=
  let afterBuy := (execute_buy_order (mkLedger initial f) sym X p "" 0).2
  (execute_sell_order afterBuy sym ((X - X * f) / p) p "" 1).2

/-- A ledger holding one open position worth 100 at its last known price,
used to evaluate the valuation on an empty price map. -/
def valuationLedger : LedgerState :=
  { mkLedger 50 0 with
      positions := [("BTC", ⟨"BTC", 2, 50, 100, 50, 100, 0, 0⟩)] }

/-- A ledger with $100 cash and 5 BTC, used to exercise the rejection
branches of buy and sell. -/
def rejectionLedger : LedgerState :=
  { mkLedger 100 0 with
      positions := [("BTC", ⟨"BTC", 5, 10, 50, 10, 50, 0, 0⟩)] }

/-- Ledger after the first $500 buy of ETH at $100 in claim C7's fee-free
scenario. -/
def c7AfterFirstBuy : LedgerState :=
  (execute_buy_order (mkLedger 10000 0) "ETH" 500 100 "" 0).2

/-- A zero-cash, 0.1%-fee ledger holding 0.999 BTC: the buy of -$100 at
price 100 has quantity exactly cancelling the position. -/
def cancellingLedger : LedgerState :=
  { mkLedger 0 (1 / 1000) with
      positions := [("BTC", ⟨"BTC", 999 / 1000, 100, 999 / 10, 100, 999 / 10, 0, 0⟩)] }

/-- Scheduler state that has exactly spent the default daily budget. -/
def exhaustedSched : SchedState :=
  { token_usage_today := 100000 }

/-- Scheduler state one token short of the budget, every analysis tier
having just run (one minute before 00:05 of day 1). -/
def almostExhaustedSched : SchedState :=
  { last_monitor := some (Instant.absMinutes ⟨1, 0, 4⟩)
    last_quick := some (Instant.absMinutes ⟨1, 0, 4⟩)
    last_medium := some (Instant.absMinutes ⟨1, 0, 4⟩)
    last_full := some (Instant.absMinutes ⟨1, 0, 4⟩)
    token_usage_today := 99999 }

/-- A market condition with the unusual-activity trigger raised. -/
def unusualCond : MarketCondition :=
  { volatility_24h := 1 / 10, volume_change := 1 / 2, price_change := 1 / 10
    unusual_activity := true }

/-- A calm market condition. -/
def calmCond : MarketCondition :=
  { volatility_24h := 0, volume_change := 0, price_change := 0
    unusual_activity := false }

/-- An operation that times out on its first two attempts and then returns
42, with the default jitter draw 0. -/
def twoTimeoutsOp : Nat → Except String Nat :=
  fun n => if n < 2 then .error "timeout" else .ok 42

/-- Same failure pattern returning 7, for the witness run. -/
def twoTimeoutsOp7 : Nat → Except String Nat :=
  fun n => if n < 2 then .error "timeout" else .ok 7

/-! ## Helper lemmas -/

theorem dictGet_dictSet_self {α : Type} (d : Dict α) (k : String) (v : α) :
    dictGet (dictSet d k v) k = some v := by
  induction d with
  | nil => simp [dictGet, dictSet]
  | cons e rest ih =>
    obtain ⟨k', v'⟩ := e
    by_cases hk : k' = k
    · simp [dictSet, hk, dictGet]
    · simp [dictSet, hk, dictGet, ih]

theorem valuation_foldl (current_prices : Dict ℚ) (l : Dict Position) :
    ∀ (a : ℚ) (acc : Dict Position),
      l.foldl (valuationStep current_prices) (a, acc) =
        (a + pricedValue current_prices l, acc ++ l.map (refreshEntry current_prices)) := by
  induction l with
  | nil => intro a acc; simp [pricedValue]
  | cons e rest ih =>
    intro a acc
    rw [List.foldl_cons]
    cases hp : dictGet current_prices e.1 with
    | none =>
      rw [show valuationStep current_prices (a, acc) e = (a, acc ++ [e]) by
            simp [valuationStep, hp]]
      rw [ih]
      simp [pricedValue, refreshEntry, hp]
    | some price =>
      rw [show valuationStep current_prices (a, acc) e =
            (a + e.2.quantity * price, acc ++ [(e.1, refreshPosition e.2 price)]) by
            simp [valuationStep, hp, refreshPosition]]
      rw [ih]
      simp [pricedValue, refreshEntry, hp]
      ring

/-! ## Claim C4 -/

/-- Claim C4: at a tick whose start finds the day's token usage at or above
the configured daily ceiling, the scheduler body returns immediately — no
analysis level above MONITOR is executed (none is executed at all) and the
scheduler state, in particular the budget counter, is untouched, whatever
the market condition (including `unusual_activity = true`) and the timers
say. -/
theorem C4_budget_exhaustion_forces_monitor (cfg : ScheduleConfig)
    (st : SchedState) (now : Instant) (cond : MarketCondition) (crewOk : Bool)
    (maxDailyTokens : Nat) (h : maxDailyTokens ≤ st.token_usage_today) :
    schedulerTick cfg st now cond crewOk maxDailyTokens = (none, st) := by
  simp [schedulerTick, h]

/-- Witness for C4: the default scheduler with 100000 tokens already spent
against a 100000 ceiling, at 00:00 of day 1, with the unusual-activity
trigger raised, performs nothing and charges nothing. -/
theorem C4_budget_exhaustion_forces_monitor_witness :
    schedulerTick {} exhaustedSched ⟨1, 0, 0⟩ unusualCond true 100000 =
      (none, exhaustedSched) ∧ unusualCond.unusual_activity = true :=
  ⟨C4_budget_exhaustion_forces_monitor {} exhaustedSched ⟨1, 0, 0⟩ unusualCond
      true 100000 (by decide), by decide⟩

/-! ## Claim C6 -/

/-- Claim C6: a sell on a symbol with no position, or for a quantity
strictly greater than the held quantity, is rejected before any mutation:
the call returns the failure value and the entire ledger state — cash,
positions (all fields), trade log, report log — is exactly the state before
the call. -/
theorem C6_sell_rejection_is_pure (st : LedgerState) (sym : String)
    (q price : ℚ) (reason : String) (now : Int)
    (h : dictGet st.positions sym = none ∨
         ∃ pos, dictGet st.positions sym = some pos ∧ pos.quantity < q) :
    execute_sell_order st sym q price reason now = (none, st) := by
  rcases h with h | ⟨pos, hpos, hq⟩
  · simp [execute_sell_order, h]
  · simp [execute_sell_order, hpos, hq]

/-- Witness for C6: selling 6 BTC against a 5 BTC position, and selling on
a symbol never held, both leave the ledger exactly as it was. -/
theorem C6_sell_rejection_is_pure_witness :
    execute_sell_order rejectionLedger "BTC" 6 10 "" 0 = (none, rejectionLedger) ∧
    execute_sell_order rejectionLedger "ETH" 1 10 "" 0 = (none, rejectionLedger) :=
  ⟨C6_sell_rejection_is_pure rejectionLedger "BTC" 6 10 "" 0
      (Or.inr ⟨⟨"BTC", 5, 10, 50, 10, 50, 0, 0⟩, by decide, by decide⟩),
   C6_sell_rejection_is_pure rejectionLedger "ETH" 1 10 "" 0
      (Or.inl (by decide))⟩

/-! ## Claim C3 -/

/-- Claim C3: every request the ledger rejects — a buy without sufficient
cash, a sell without a position, a sell beyond the held quantity — returns
the failure value of the `Optional[Trade]` result, which no successful
return can equal: callers can always distinguish rejection from an executed
trade, and no rejection is reported as a success-shaped no-op. -/
theorem C3_rejections_return_failure (st : LedgerState) (sym : String)
    (usd q price : ℚ) (reason : String) (now : Int) :
    (st.current_balance < usd →
      (execute_buy_order st sym usd price reason now).1 = none ∧
      ∀ t : Trade, (execute_buy_order st sym usd price reason now).1 ≠ some t) ∧
    (dictGet st.positions sym = none →
      (execute_sell_order st sym q price reason now).1 = none ∧
      ∀ t : Trade, (execute_sell_order st sym q price reason now).1 ≠ some t) ∧
    (∀ pos : Position, dictGet st.positions sym = some pos → pos.quantity < q →
      (execute_sell_order st sym q price reason now).1 = none ∧
      ∀ t : Trade, (execute_sell_order st sym q price reason now).1 ≠ some t) := by
  refine ⟨fun h => ?_, fun h => ?_, fun pos hpos hq => ?_⟩
  · constructor
    · simp [execute_buy_order, h]
    · intro t; simp [execute_buy_order, h]
  · constructor
    · simp [execute_sell_order, h]
    · intro t; simp [execute_sell_order, h]
  · constructor
    · simp [execute_sell_order, hpos, hq]
    · intro t; simp [execute_sell_order, hpos, hq]

/-- Witness for C3: a $200 buy against $100 cash, a sell of a never-held
symbol and an oversized sell all yield the failure value `none`. -/
theorem C3_rejections_return_failure_witness :
    (execute_buy_order rejectionLedger "BTC" 200 10 "" 0).1 = none ∧
    (execute_sell_order rejectionLedger "ETH" 1 10 "" 0).1 = none ∧
    (execute_sell_order rejectionLedger "BTC" 99 10 "" 0).1 = none :=
  ⟨((C3_rejections_return_failure rejectionLedger "BTC" 200 99 10 "" 0).1
      (by decide)).1,
   ((C3_rejections_return_failure rejectionLedger "ETH" 200 1 10 "" 0).2.1
      (by decide)).1,
   ((C3_rejections_return_failure rejectionLedger "BTC" 200 99 10 "" 0).2.2
      ⟨"BTC", 5, 10, 50, 10, 50, 0, 0⟩ (by decide) (by decide)).1⟩

/-! ## Claim C1 -/

/-- Counterexample to claim C1: a ledger with $50 cash and one open BTC
position whose last known value is 100, valued against an empty price map.
The claim predicts cash plus the last-known value, 150; the code returns 50
because the `positions_value` accumulation happens only for symbols present
in the map. -/
theorem C1_missing_symbol_counterexample :
    (get_current_portfolio_value valuationLedger []).1 = 50 ∧
    specValuation valuationLedger [] = 150 ∧
    (get_current_portfolio_value valuationLedger []).1 ≠
      specValuation valuationLedger [] := by
  have h1 : (get_current_portfolio_value valuationLedger []).1 = 50 := by
    norm_num [get_current_portfolio_value, valuationLedger, mkLedger,
      valuationStep, dictGet]
  have h2 : specValuation valuationLedger [] = 150 := by
    norm_num [specValuation, valuationLedger, mkLedger, dictGet]
  exact ⟨h1, h2, by rw [h1, h2]; norm_num⟩

/-- Claim C1 as amended: `get_current_portfolio_value` returns cash plus the
sum of recomputed `quantity * price` over exactly those open positions whose
symbol the price map contains; a position with a missing symbol contributes
nothing to the total, all its fields staying at their previous values, while
each priced position has `current_price`, `current_value`, `unrealized_pnl`
and `unrealized_pnl_pct` recomputed from the map. -/
theorem C1_valuation_amended (st : LedgerState) (current_prices : Dict ℚ) :
    get_current_portfolio_value st current_prices =
      (st.current_balance + pricedValue current_prices st.positions,
       { st with positions := st.positions.map (refreshEntry current_prices) }) := by
  unfold get_current_portfolio_value
  rw [valuation_foldl]
  simp

/-! ## Claim C2 -/

/-- Claim C2: under the guarded call protocol the repository uses
(`should_generate_daily_report` consulted before `generate_daily_report`),
at most one report is persisted per calendar date: after one guarded call
the guard is closed for that date, a second guarded call on the same date
changes nothing, and the report log gains at most one entry dated that day. -/
theorem C2_daily_report_once_per_date (st : LedgerState)
    (prices prices' : Dict ℚ) (today : Int) :
    guarded_daily_report (guarded_daily_report st prices today) prices' today =
      guarded_daily_report st prices today ∧
    should_generate_daily_report (guarded_daily_report st prices today) today = false ∧
    countReportsOn today (guarded_daily_report st prices today).daily_reports ≤
      countReportsOn today st.daily_reports + 1 := by
  have hlast : (generate_daily_report st prices today).2.last_report_date = some today := rfl
  have hrep : (generate_daily_report st prices today).2.daily_reports =
      st.daily_reports ++ [(generate_daily_report st prices today).1] := rfl
  have hdate : (generate_daily_report st prices today).1.date = today := rfl
  cases hsg : should_generate_daily_report st today with
  | false =>
    have h1 : guarded_daily_report st prices today = st := by
      simp [guarded_daily_report, hsg]
    rw [h1]
    exact ⟨by simp [guarded_daily_report, hsg], hsg, Nat.le_succ _⟩
  | true =>
    have h1 : guarded_daily_report st prices today =
        (generate_daily_report st prices today).2 := by
      simp [guarded_daily_report, hsg]
    rw [h1]
    have hclosed : should_generate_daily_report
        (generate_daily_report st prices today).2 today = false := by
      simp [should_generate_daily_report, hlast]
    refine ⟨by simp [guarded_daily_report, hclosed], hclosed, ?_⟩
    rw [hrep]
    simp [countReportsOn, List.filter_append, hdate]

/-! ## Claim C7 -/

/-- Claim C7: an accepted buy on a symbol with an existing position updates
the average cost basis to `(oldTotalCost + net) / (oldQty + qty)` with
`net = usdAmount - usdAmount * feeRate` and `qty = net / price`, the
quantity to `oldQty + qty` and the total cost to `oldTotalCost + net`,
leaving the position's other fields untouched. -/
theorem C7_weighted_average_cost_basis (st : LedgerState) (sym : String)
    (usd price : ℚ) (reason : String) (now : Int) (pos : Position)
    (hpos : dictGet st.positions sym = some pos)
    (hacc : ¬ st.current_balance < usd)
    (hprice : price ≠ 0)
    (hnz : pos.quantity + (usd - usd * st.trading_fee) / price ≠ 0) :
    dictGet (execute_buy_order st sym usd price reason now).2.positions sym =
      some { pos with
               avg_price := (pos.total_cost + (usd - usd * st.trading_fee)) /
                 (pos.quantity + (usd - usd * st.trading_fee) / price)
               quantity := pos.quantity + (usd - usd * st.trading_fee) / price
               total_cost := pos.total_cost + (usd - usd * st.trading_fee) } := by
  simp [execute_buy_order, hacc, hprice, hpos, hnz, dictGet_dictSet_self]

/-- Witness for C7, the spec's scenario: fee-free ledger, $500 of ETH bought
at $100 and then $500 more at $200 yield quantity 7.5 and average cost basis
`(5*100 + 2.5*200) / (5 + 2.5) = 400/3 ≈ 133.33`. -/
theorem C7_weighted_average_cost_basis_witness :
    dictGet (execute_buy_order c7AfterFirstBuy "ETH" 500 200 "" 1).2.positions "ETH" =
      some ⟨"ETH", 15 / 2, 400 / 3, 1000, 100, 500, 0, 0⟩ ∧
    (400 : ℚ) / 3 = (5 * 100 + 5 / 2 * 200) / (5 + 5 / 2) := by
  have hpositions : c7AfterFirstBuy.positions =
      [("ETH", ⟨"ETH", 5, 100, 500, 100, 500, 0, 0⟩)] := by
    norm_num [c7AfterFirstBuy, execute_buy_order, mkLedger, dictGet, dictSet]
  have hfee : c7AfterFirstBuy.trading_fee = 0 := by
    norm_num [c7AfterFirstBuy, execute_buy_order, mkLedger, dictGet]
  have hbal : c7AfterFirstBuy.current_balance = 9500 := by
    norm_num [c7AfterFirstBuy, execute_buy_order, mkLedger, dictGet]
  have h := C7_weighted_average_cost_basis c7AfterFirstBuy "ETH" 500 200 "" 1
    ⟨"ETH", 5, 100, 500, 100, 500, 0, 0⟩
    (by rw [hpositions]; simp [dictGet])
    (by rw [hbal]; norm_num)
    (by norm_num)
    (by rw [hfee]; norm_num)
  rw [h, hfee]
  norm_num

/-! ## Claim C8 -/

/-- Counterexample to claim C8: with initial balance $10000, fee rate 0.001,
a $1000 buy at $50000 followed by a sell of the whole position at $50000
leaves $9998.001, not `initial - 2*fee = 9998`: the sell fee is charged on
the net-of-buy-fee gross, not on the full $1000. -/
theorem C8_round_trip_counterexample :
    (roundTripState 10000 (1 / 1000) 1000 50000 "BTC").current_balance =
      9998001 / 1000 ∧
    (roundTripState 10000 (1 / 1000) 1000 50000 "BTC").current_balance ≠
      10000 - 2 * (1000 * (1 / 1000)) := by
  have h : (roundTripState 10000 (1 / 1000) 1000 50000 "BTC").current_balance =
      9998001 / 1000 := by
    norm_num [roundTripState, execute_buy_order, execute_sell_order, mkLedger,
      dictGet, dictSet, dictErase]
  exact ⟨h, by rw [h]; norm_num⟩

/-- Claim C8 as amended: after an accepted buy of $X at price p on a fresh
ledger, selling the entire resulting quantity at the same price leaves cash
`initial - feeBuy - feeSell` where `feeBuy = X*f` and
`feeSell = (X - feeBuy)*f` — equal to `initial - 2*X*f` only when `f = 0`,
the sell fee being charged on the net-of-buy-fee gross — and removes the
position from the map. -/
theorem C8_round_trip_fee_amended (initial f X p : ℚ) (sym : String)
    (hX : X ≤ initial) (hp : p ≠ 0) :
    (roundTripState initial f X p sym).current_balance =
      initial - X * f - (X - X * f) * f ∧
    dictGet (roundTripState initial f X p sym).positions sym = none := by
  have hacc : ¬ initial < X := not_lt.mpr hX
  have hq : (X - X * f) / p * p = X - X * f := div_mul_cancel₀ _ hp
  constructor
  · norm_num [roundTripState, execute_buy_order, execute_sell_order, mkLedger,
      dictGet, dictSet, dictErase, hacc, hp, hq]
    ring
  · norm_num [roundTripState, execute_buy_order, execute_sell_order, mkLedger,
      dictGet, dictSet, dictErase, hacc, hp, hq]

/-- Witness for C8 as amended: the spec's own numbers, $10000 at fee 0.001
round-tripping $1000 at $50000. -/
theorem C8_round_trip_fee_amended_witness :
    (roundTripState 10000 (1 / 1000) 1000 50000 "BTC").current_balance =
      10000 - 1000 * (1 / 1000) - (1000 - 1000 * (1 / 1000)) * (1 / 1000) ∧
    dictGet (roundTripState 10000 (1 / 1000) 1000 50000 "BTC").positions "BTC" =
      none :=
  C8_round_trip_fee_amended 10000 (1 / 1000) 1000 50000 "BTC" (by norm_num)
    (by norm_num)

/-! ## Claim C5 -/

/-- Claim C5 is a code bug; this theorem evaluates the loop body at the
failing inputs.  With the default budget of 100000 spent, a tick on the next
calendar day — at 00:05 or even exactly at 00:00 — leaves
`token_usage_today` at 100000 (the exhaustion branch `continue`s before the
summary call that contains the reset), and even below the ceiling a new-day
tick at 00:05 keeps the previous day's 99999 spend (the reset only fires
when a tick lands exactly on minute 0 of hour 0). -/
theorem C5_budget_counter_not_reset_at_midnight :
    (schedulerTick {} exhaustedSched ⟨1, 0, 5⟩ calmCond true 100000).2.token_usage_today
      = 100000 ∧
    (schedulerTick {} exhaustedSched ⟨1, 0, 0⟩ calmCond true 100000).2.token_usage_today
      = 100000 ∧
    (schedulerTick {} almostExhaustedSched ⟨1, 0, 5⟩ calmCond true 100000).2.token_usage_today
      = 99999 := by
  refine ⟨by decide, by decide, ?_⟩
  norm_num [schedulerTick, determine_analysis_level, execute_analysis,
    log_daily_summary, almostExhaustedSched, calmCond, due, Instant.absMinutes,
    Instant.weekday, exhaustedSched]

/-! ## Claim C9 -/

/-- Helper: with two retryable failures and then a success within the retry
budget, the loop returns the success and sleeps exactly the two backoff
delays for attempts 0 and 1. -/
theorem retry_two_timeouts_run {α : Type} (h : RetryHandler)
    (op : Nat → Except String α) (r : Nat → ℚ) (a : α) (e0 e1 : String)
    (hmr : 2 ≤ h.max_retries)
    (h0 : op 0 = .error e0) (h1 : op 1 = .error e1) (h2 : op 2 = .ok a)
    (hr0 : is_retryable_error e0 = true) (hr1 : is_retryable_error e1 = true) :
    execute_with_retry h op r =
      (.ok a, [exponential_backoff_delay h 0 (r 0),
               exponential_backoff_delay h 1 (r 1)]) := by
  obtain ⟨k, hk⟩ : ∃ k, h.max_retries = Nat.succ (Nat.succ k) :=
    ⟨h.max_retries - 2, by omega⟩
  unfold execute_with_retry
  rw [hk]
  simp [executeWithRetryGo, h0, h1, h2, hr0, hr1]

/-- Helper: for a jitter draw in `[0, 1)`, the backoff delay for attempt `k`
lies in `[0.75 c, 1.25 c]` with `c = min(base * 2^k, max_delay)`, provided
the lower end of that interval is not below the hard 0.1-second floor. -/
theorem backoff_delay_in_interval (h : RetryHandler) (k : Nat) (rk : ℚ)
    (hr0 : 0 ≤ rk) (hr1 : rk < 1)
    (hfloor : 1 / 10 ≤ 3 / 4 * min (h.base_delay * 2 ^ k) h.max_delay) :
    3 / 4 * min (h.base_delay * 2 ^ k) h.max_delay ≤
      exponential_backoff_delay h k rk ∧
    exponential_backoff_delay h k rk ≤
      5 / 4 * min (h.base_delay * 2 ^ k) h.max_delay := by
  set c := min (h.base_delay * 2 ^ k) h.max_delay with hc
  have hc0 : 0 ≤ c := by nlinarith
  have hx1 : 3 / 4 * c ≤ c + c * (1 / 4) * (2 * rk - 1) := by nlinarith
  have hx2 : c + c * (1 / 4) * (2 * rk - 1) ≤ 5 / 4 * c := by nlinarith
  have hval : exponential_backoff_delay h k rk = c + c * (1 / 4) * (2 * rk - 1) := by
    unfold exponential_backoff_delay
    rw [← hc]
    exact max_eq_right (le_trans hfloor hx1)
  rw [hval]
  exact ⟨hx1, hx2⟩

/-- Counterexample to claim C9: a handler with `base_delay = 0.01` (and the
two-timeouts-then-success operation, zero jitter draw) sleeps 0.1 before the
first retry — the `max(0.1, ...)` floor — which is outside the claimed
interval `[0.75 * 0.01 * 2^0, 1.25 * 0.01 * 2^0]` capped at `max_delay`. -/
theorem C9_backoff_floor_counterexample :
    (execute_with_retry { max_retries := 3, base_delay := 1 / 100, max_delay := 60 }
        twoTimeoutsOp (fun _ => 0)).2 = [1 / 10, 1 / 10] ∧
    ¬ ((1 : ℚ) / 10 ≤ 5 / 4 * min ((1 / 100 : ℚ) * 2 ^ 0) 60) := by
  have hret : is_retryable_error "timeout" = true := by decide
  constructor
  · norm_num [execute_with_retry, executeWithRetryGo, twoTimeoutsOp, hret,
      exponential_backoff_delay, min_def, max_def]
  · norm_num [min_def]

/-- Claim C9 as amended: on two retryable (timeout) failures followed by a
success, `execute_with_retry` returns the success result and performs
exactly the two backoff delays for attempts 0 and 1, each lying within
`[base*2^k*0.75, base*2^k*1.25]` capped at `max_delay` — provided the lower
end of each interval clears the code's 0.1-second floor (`max(0.1, ...)`),
which the claim omitted; below that floor the delay is 0.1 instead. -/
theorem C9_retry_success_and_bounded_delays {α : Type} (h : RetryHandler)
    (op : Nat → Except String α) (r : Nat → ℚ) (a : α) (e0 e1 : String)
    (hmr : 2 ≤ h.max_retries)
    (h0 : op 0 = .error e0) (h1 : op 1 = .error e1) (h2 : op 2 = .ok a)
    (hr0 : is_retryable_error e0 = true) (hr1 : is_retryable_error e1 = true)
    (hj0 : 0 ≤ r 0) (hj0' : r 0 < 1) (hj1 : 0 ≤ r 1) (hj1' : r 1 < 1)
    (hfloor0 : 1 / 10 ≤ 3 / 4 * min (h.base_delay * 2 ^ 0) h.max_delay)
    (hfloor1 : 1 / 10 ≤ 3 / 4 * min (h.base_delay * 2 ^ 1) h.max_delay) :
    execute_with_retry h op r =
      (.ok a, [exponential_backoff_delay h 0 (r 0),
               exponential_backoff_delay h 1 (r 1)]) ∧
    (3 / 4 * min (h.base_delay * 2 ^ 0) h.max_delay ≤
        exponential_backoff_delay h 0 (r 0) ∧
      exponential_backoff_delay h 0 (r 0) ≤
        5 / 4 * min (h.base_delay * 2 ^ 0) h.max_delay) ∧
    (3 / 4 * min (h.base_delay * 2 ^ 1) h.max_delay ≤
        exponential_backoff_delay h 1 (r 1) ∧
      exponential_backoff_delay h 1 (r 1) ≤
        5 / 4 * min (h.base_delay * 2 ^ 1) h.max_delay) :=
  ⟨retry_two_timeouts_run h op r a e0 e1 hmr h0 h1 h2 hr0 hr1,
   backoff_delay_in_interval h 0 (r 0) hj0 hj0' hfloor0,
   backoff_delay_in_interval h 1 (r 1) hj1 hj1' hfloor1⟩

/-- Witness for C9 as amended: the default handler (max_retries 3, base 1s,
cap 60s) against two timeouts then 7, with jitter draws 1/2. -/
theorem C9_retry_success_and_bounded_delays_witness :
    execute_with_retry {} twoTimeoutsOp7 (fun _ => 1 / 2) =
      (.ok 7, [exponential_backoff_delay {} 0 (1 / 2),
               exponential_backoff_delay {} 1 (1 / 2)]) ∧
    (3 / 4 * min ((1 : ℚ) * 2 ^ 0) 60 ≤ exponential_backoff_delay {} 0 (1 / 2) ∧
      exponential_backoff_delay {} 0 (1 / 2) ≤ 5 / 4 * min ((1 : ℚ) * 2 ^ 0) 60) ∧
    (3 / 4 * min ((1 : ℚ) * 2 ^ 1) 60 ≤ exponential_backoff_delay {} 1 (1 / 2) ∧
      exponential_backoff_delay {} 1 (1 / 2) ≤ 5 / 4 * min ((1 : ℚ) * 2 ^ 1) 60) :=
  C9_retry_success_and_bounded_delays {} twoTimeoutsOp7 (fun _ => 1 / 2) 7
    "timeout" "timeout" (by norm_num) rfl rfl rfl (by decide) (by decide)
    (by norm_num) (by norm_num) (by norm_num) (by norm_num)
    (by rw [min_eq_left (by norm_num)]; norm_num)
    (by rw [min_eq_left (by norm_num)]; norm_num)

/-! ## Claim C10 -/

/-- Counterexample to claim C10: with price 100 > 0, a zero-cash 0.1%-fee
ledger holding 0.999 BTC and the buy `usd_amount = -100` — whose quantity
exactly cancels the position — the order is NOT accepted: no trade is
appended (the ZeroDivisionError in the average-price computation is caught
and `None` returned), yet the state is not unchanged either: the already
applied balance decrement leaves the cash at 100. -/
theorem C10_cancelling_buy_counterexample :
    ((-100 : ℚ) < 0 ∧ (0 : ℚ) ≤ cancellingLedger.current_balance ∧ (0 : ℚ) < 100) ∧
    (execute_buy_order cancellingLedger "BTC" (-100) 100 "" 0).1 = none ∧
    (execute_buy_order cancellingLedger "BTC" (-100) 100 "" 0).2.trades = [] ∧
    (execute_buy_order cancellingLedger "BTC" (-100) 100 "" 0).2.current_balance =
      100 := by
  refine ⟨⟨by norm_num, by norm_num [cancellingLedger, mkLedger], by norm_num⟩,
    ?_, ?_, ?_⟩ <;>
    norm_num [execute_buy_order, cancellingLedger, mkLedger, dictGet]

/-- Claim C10 as amended: for `usd_amount < 0` (with cash ≥ 0, price > 0 and
a fee rate strictly between 0 and 1) the insufficient-funds check passes and
— except in the corner where the buy's negative quantity exactly cancels an
existing position, where the caught ZeroDivisionError returns `None` with
the balance decrement already applied — the order is accepted: a BUY trade
with negative quantity and negative fee is appended, the cash balance grows
by `|usd_amount|`, and the position is created with negative
quantity/total_cost (or updated by those negative increments); a zero price
is rejected with the state unchanged. -/
theorem C10_missing_validation_amended (st : LedgerState) (sym : String)
    (usd price : ℚ) (reason : String) (now : Int)
    (husd : usd < 0) (hbal : 0 ≤ st.current_balance) (hprice : 0 < price)
    (hf0 : 0 < st.trading_fee) (hf1 : st.trading_fee < 1)
    (hnc : ∀ pos, dictGet st.positions sym = some pos →
      pos.quantity + (usd - usd * st.trading_fee) / price ≠ 0) :
    (∃ t : Trade,
      (execute_buy_order st sym usd price reason now).1 = some t ∧
      t.side = "BUY" ∧ t.quantity < 0 ∧ t.fee < 0 ∧
      (execute_buy_order st sym usd price reason now).2.current_balance =
        st.current_balance - usd ∧
      st.current_balance <
        (execute_buy_order st sym usd price reason now).2.current_balance ∧
      (execute_buy_order st sym usd price reason now).2.trades =
        st.trades ++ [t] ∧
      ((dictGet st.positions sym = none ∧
        dictGet (execute_buy_order st sym usd price reason now).2.positions sym =
          some ⟨sym, (usd - usd * st.trading_fee) / price, price,
                usd - usd * st.trading_fee, price,
                (usd - usd * st.trading_fee) / price * price, 0, 0⟩ ∧
        usd - usd * st.trading_fee < 0) ∨
       (∃ pos, dictGet st.positions sym = some pos ∧
        dictGet (execute_buy_order st sym usd price reason now).2.positions sym =
          some { pos with
                   avg_price := (pos.total_cost + (usd - usd * st.trading_fee)) /
                     (pos.quantity + (usd - usd * st.trading_fee) / price)
                   quantity := pos.quantity + (usd - usd * st.trading_fee) / price
                   total_cost := pos.total_cost + (usd - usd * st.trading_fee) }))) ∧
    (∀ usd' : ℚ, execute_buy_order st sym usd' 0 reason now = (none, st)) := by
  have hacc : ¬ st.current_balance < usd := not_lt.mpr (le_trans (le_of_lt husd) hbal)
  have hp0 : price ≠ 0 := ne_of_gt hprice
  have hnet : usd - usd * st.trading_fee < 0 := by nlinarith
  have hqty : (usd - usd * st.trading_fee) / price < 0 :=
    div_neg_of_neg_of_pos hnet hprice
  have hfee : usd * st.trading_fee < 0 := mul_neg_of_neg_of_pos husd hf0
  constructor
  · cases hpos : dictGet st.positions sym with
    | none =>
      refine ⟨{ trade_id := "BUY_" ++ sym ++ "_" ++ toString now
                timestamp := now
                symbol := sym
                side := "BUY"
                quantity := (usd - usd * st.trading_fee) / price
                price := price
                value := usd
                fee := usd * st.trading_fee
                reasoning := reason },
        ?_, rfl, hqty, hfee, ?_, ?_, ?_, Or.inl ⟨rfl, ?_, hnet⟩⟩
      · simp [execute_buy_order, hacc, hp0, hpos]
      · simp [execute_buy_order, hacc, hp0, hpos]
      · simp [execute_buy_order, hacc, hp0, hpos]
        linarith
      · simp [execute_buy_order, hacc, hp0, hpos]
      · simp [execute_buy_order, hacc, hp0, hpos, dictGet_dictSet_self]
    | some pos =>
      have hnz := hnc pos hpos
      refine ⟨{ trade_id := "BUY_" ++ sym ++ "_" ++ toString now
                timestamp := now
                symbol := sym
                side := "BUY"
                quantity := (usd - usd * st.trading_fee) / price
                price := price
                value := usd
                fee := usd * st.trading_fee
                reasoning := reason },
        ?_, rfl, hqty, hfee, ?_, ?_, ?_, Or.inr ⟨pos, rfl, ?_⟩⟩
      · simp [execute_buy_order, hacc, hp0, hpos, hnz]
      · simp [execute_buy_order, hacc, hp0, hpos, hnz]
      · simp [execute_buy_order, hacc, hp0, hpos, hnz]
        linarith
      · simp [execute_buy_order, hacc, hp0, hpos, hnz]
      · simp [execute_buy_order, hacc, hp0, hpos, hnz, dictGet_dictSet_self]
  · intro usd'
    by_cases hb : st.current_balance < usd'
    · simp [execute_buy_order, hb]
    · simp [execute_buy_order, hb]

/-- Witness for C10 as amended: buying -$100 of BTC at price 50 on a fresh
$1000 ledger with the default 0.1% fee is accepted and leaves $1100 cash. -/
theorem C10_missing_validation_amended_witness :
    (execute_buy_order (mkLedger 1000 (1 / 1000)) "BTC" (-100) 50 "" 0).1.isSome
      = true ∧
    (execute_buy_order (mkLedger 1000 (1 / 1000)) "BTC" (-100) 50 "" 0).2.current_balance
      = 1100 := by
  obtain ⟨t, h1, hside, hqty, hfee, hbal, hlt, htr, hpos⟩ :=
    (C10_missing_validation_amended (mkLedger 1000 (1 / 1000)) "BTC" (-100) 50
      "" 0 (by norm_num) (by norm_num [mkLedger]) (by norm_num)
      (by norm_num [mkLedger]) (by norm_num [mkLedger])
      (by intro pos h; simp [mkLedger, dictGet] at h)).1
  constructor
  · rw [h1]; rfl
  · rw [hbal]; norm_num [mkLedger]

end CryptoTrader
